import Mathlib

/-!
Verification of the devcontainer wizard synthesis engine
(src/tools/devcontainer-wizard/wizard.js).

The engine turns a selection of options (security profile, shell, tools,
security tools, features, extension categories) into a devcontainer
manifest and a Dockerfile build script.  Every definition below is a
direct shallow embedding of the corresponding method of the
`DevContainerWizard` class; string fragments are transcribed verbatim.
-/

set_option maxRecDepth 4000

namespace DevWizard

/-- The SelectionModel: the raw form data collected by `getFormData`. -/
structure Config where
  security : String
  shell : String
  tools : List String
  securityTools : List String
  features : List String
  extensions : List String
deriving Repr, DecidableEq

/-- Embedding of `getToolInstallation`: tool id to Dockerfile fragment, unknown ids map to the empty string (`installations[tool] || ''`). -/
def getToolInstallation (tool : String) : String :=
  if tool = "solidity" then "# Install Solidity compiler and solc-select\nRUN pip3 install solc-select && \\\n    solc-select install 0.8.21 && \\\n    solc-select use 0.8.21\n\n"
  else if tool = "vyper" then "# Install Vyper\nRUN pip3 install vyper\n\n"
  else if tool = "hardhat" then "# Install Hardhat (requires Node.js)\nRUN if ! command -v node &> /dev/null; then \\\n        curl -fsSL https://deb.nodesource.com/setup_20.x | bash - && \\\n        apt-get install -y nodejs; \\\n    fi \\\n    && npm install -g hardhat\n\n"
  else if tool = "foundry" then "# Install Foundry\nRUN curl -L https://foundry.paradigm.xyz | bash \\\n    && /root/.foundry/bin/foundryup\n\nENV PATH=\"/root/.foundry/bin:$PATH\"\n\n"
  else if tool = "nodejs" then "# Node.js already installed or will be installed\nRUN if ! command -v node &> /dev/null; then \\\n        curl -fsSL https://deb.nodesource.com/setup_20.x | bash - && \\\n        apt-get install -y nodejs; \\\n    fi\n\n"
  else if tool = "python" then "# Install Python Web3 libraries\nRUN pip3 install web3 eth-brownie\n\n"
  else if tool = "rust" then "# Rust already installed or will be installed\nRUN if ! command -v rustc &> /dev/null; then \\\n        curl --proto \x27=https\x27 --tlsv1.2 -sSf https://sh.rustup.rs | sh -s -- -y && \\\n        . $HOME/.cargo/env; \\\n    fi\n\n"
  else if tool = "go" then "# Go already installed or will be installed\nRUN if ! command -v go &> /dev/null; then \\\n        wget https://golang.org/dl/go1.21.5.linux-amd64.tar.gz && \\\n        tar -C /usr/local -xzf go1.21.5.linux-amd64.tar.gz && \\\n        rm go1.21.5.linux-amd64.tar.gz; \\\n    fi\n\nENV PATH=\"/usr/local/go/bin:$PATH\"\n\n"
  else ""

/-- The tool ids that `getToolInstallation` recognizes. -/
def knownToolIds : List String :=
  ["solidity", "vyper", "hardhat", "foundry", "nodejs", "python", "rust", "go"]

/-- Embedding of `getSecurityToolInstallation`: security-tool group id to Dockerfile fragment, unknown ids map to the empty string. -/
def getSecurityToolInstallation (toolGroup : String) : String :=
  if toolGroup = "fuzzing" then "# Install Fuzzing Tools\nRUN # Install Medusa\n    wget https://github.com/crytic/medusa/releases/latest/download/medusa-linux-x64.tar.gz && \\\n    tar -xzf medusa-linux-x64.tar.gz && \\\n    mv medusa /usr/local/bin/ && \\\n    rm medusa-linux-x64.tar.gz && \\\n    # Install Echidna\n    wget https://github.com/crytic/echidna/releases/latest/download/echidna-test-2.2.1-Ubuntu-18.04.tar.gz && \\\n    tar -xzf echidna-test-2.2.1-Ubuntu-18.04.tar.gz && \\\n    mv echidna-test /usr/local/bin/echidna && \\\n    rm echidna-test-2.2.1-Ubuntu-18.04.tar.gz\n\n"
  else if toolGroup = "static-analysis" then "# Install Static Analysis Tools\nRUN pip3 install slither-analyzer slitherin semgrep aderyn && \\\n    # Install Slither LSP\n    pip3 install slither-lsp\n\n"
  else if toolGroup = "symbolic-execution" then "# Install Symbolic Execution Tools\nRUN pip3 install mythril && \\\n    # Install Halmos\n    pip3 install halmos\n\n"
  else if toolGroup = "decompilers" then "# Install Decompiler Tools\nRUN pip3 install panoramix-decompiler && \\\n    # Install Heimdall\n    wget https://github.com/Jon-Becker/heimdall-rs/releases/latest/download/heimdall-linux && \\\n    chmod +x heimdall-linux && \\\n    mv heimdall-linux /usr/local/bin/heimdall\n\n"
  else if toolGroup = "forensics" then "# Install Forensics Tools\nRUN pip3 install napalm-blockchain && \\\n    apt-get update && apt-get install -y --no-install-recommends \\\n    hexdump \\\n    xxd \\\n    binutils \\\n    && rm -rf /var/lib/apt/lists/*\n\n"
  else ""

/-- The security-tool group ids that `getSecurityToolInstallation` recognizes. -/
def knownSecurityToolIds : List String :=
  ["fuzzing", "static-analysis", "symbolic-execution", "decompilers", "forensics"]

/-- Embedding of `getPackageManagerInstallation`. -/
def getPackageManagerInstallation : String :=
  "# Install Additional Package Managers\nRUN # Install Node.js if not already installed (needed for yarn/pnpm)\n    if ! command -v node &> /dev/null; then \\\n        curl -fsSL https://deb.nodesource.com/setup_20.x | bash - && \\\n        apt-get install -y nodejs && \\\n        rm -rf /var/lib/apt/lists/*; \\\n    fi && \\\n    # Install yarn and pnpm\n    npm install -g yarn pnpm && \\\n    # Install pipx\n    python3 -m pip install pipx && \\\n    # Install uv (fast Python package installer)\n    curl -LsSf https://astral.sh/uv/install.sh | sh\n\n"

/-- Embedding of `getIPFSInstallation`. -/
def getIPFSInstallation : String :=
  "# Install IPFS\nRUN apt-get update && apt-get install -y wget && \\\n    rm -rf /var/lib/apt/lists/* && \\\n    wget https://dist.ipfs.tech/kubo/v0.24.0/kubo_v0.24.0_linux-amd64.tar.gz && \\\n    tar -xzf kubo_v0.24.0_linux-amd64.tar.gz && \\\n    cd kubo && ./install.sh && \\\n    cd .. && rm -rf kubo* && \\\n    ipfs --version\n\n"

/-- Embedding of `getShellPath`: shell id to absolute path, unknown ids fall back to `/bin/bash` (`shells[shell] || '/bin/bash'`). -/
def getShellPath (shell : String) : String :=
  if shell = "bash" then "/bin/bash"
  else if shell = "zsh" then "/bin/zsh"
  else if shell = "fish" then "/usr/bin/fish"
  else "/bin/bash"

/-- Result of `validateConfiguration`: three severity buckets plus the `hasIssues` flag. -/
structure ValidationResults where
  errors : List String
  warnings : List String
  info : List String
  hasIssues : Bool
deriving Repr, DecidableEq

/-- Embedding of `validateConfiguration`.  Each bucket lists its messages in the order the source pushes them (rule declaration order). -/
def validateConfiguration (config : Config) : ValidationResults :=
  let warnings :=
    (if config.security = "auditor" ∧ config.securityTools.length = 0 then ["Security Auditor profile selected but no security tools chosen. Consider adding static analysis or fuzzing tools."] else []) ++
    (if config.security = "hardened" ∧ config.tools.length > 3 then ["Hardened security with many tools may increase container size and attack surface."] else []) ++
    (if "hardhat" ∈ config.tools ∧ "foundry" ∈ config.tools then ["Both Hardhat and Foundry selected. This may cause conflicts or unnecessary bloat."] else []) ++
    (if "fuzzing" ∈ config.securityTools ∧ "solidity" ∉ config.tools ∧ "vyper" ∉ config.tools then ["Fuzzing tools selected but no smart contract languages chosen. Fuzzing tools are most useful with Solidity/Vyper."] else []) ++
    (if config.security = "hardened" ∧ config.shell ≠ "bash" then ["Non-bash shells in hardened mode may introduce additional security considerations."] else []) ++
    (if "asdf" ∈ config.features ∧ "nvm" ∈ config.features then ["Both asdf and nvm selected. asdf can manage Node.js versions, making nvm redundant."] else []) ++
    (if config.tools.length + config.securityTools.length > 5 then ["Large number of tools selected (" ++ toString (config.tools.length + config.securityTools.length) ++ "). This will result in a larger container image."] else []) ++
    (if "ipfs" ∈ config.features ∧ "ports" ∉ config.features then ["IPFS selected but ports not forwarded. Consider enabling port forwarding for IPFS API (5001) and Gateway (8080)."] else [])
  let errors :=
    if "docker" ∈ config.features ∧ config.security = "auditor" then ["Docker-in-Docker is not compatible with read-only auditor mode."] else []
  let info :=
    (if "solidity" ∈ config.tools ∧ "foundry" ∉ config.tools ∧ "hardhat" ∉ config.tools then ["Solidity selected without a framework. Consider adding Foundry or Hardhat for better development experience."] else []) ++
    (if config.securityTools.length ≥ 3 then ["Multiple security tools selected. Container build may take longer but provides comprehensive analysis capabilities."] else []) ++
    (if "rust" ∈ config.tools ∧ "nvm" ∈ config.features then ["NVM selected with Rust. Consider using asdf for managing multiple language versions."] else []) ++
    (if "solidity" ∈ config.tools ∧ "python" ∉ config.tools then ["Solidity uses solc-select which is installed via pip3. Python3 will be automatically installed."] else []) ++
    (if "package-managers" ∈ config.features ∧ "nodejs" ∉ config.tools then ["Package managers (yarn/pnpm) require Node.js which will be automatically installed."] else [])
  { errors := errors
    warnings := warnings
    info := info
    hasIssues := decide (errors.length > 0) || decide (warnings.length > 0) }

/-- Embedding of `getCommonPorts`: ports pushed per tool/feature, with the `[8545, 3000]` default when nothing matched.  The list is NOT deduplicated. -/
def getCommonPorts (tools features : List String) : List Nat :=
  let ports :=
    (if "hardhat" ∈ tools ∨ "nodejs" ∈ tools then [8545, 3000] else []) ++
    (if "foundry" ∈ tools then [8545] else []) ++
    (if "ipfs" ∈ features then [5001, 8080] else [])
  if ports.length > 0 then ports else [8545, 3000]

/-- Embedding of `getPostCreateCommand`: `undefined` when no command applies, otherwise the commands joined with ` && `. -/
def getPostCreateCommand (config : Config) : Option String :=
  let commands :=
    (if config.shell = "zsh" then ["chsh -s /bin/zsh"]
     else if config.shell = "fish" then ["chsh -s /usr/bin/fish"]
     else []) ++
    (if "nodejs" ∈ config.tools then ["npm install -g yarn pnpm"] else [])
  if commands.length > 0 then some (String.intercalate " && " commands) else none

/-- The `switch` in `getRecommendedExtensions`: extension category id to its fixed extension list; unknown categories contribute nothing. -/
def extensionCategoryList (category : String) : List String :=
  if category = "solidity-core" then ["JuanBlanco.solidity", "NomicFoundation.hardhat-solidity"]
  else if category = "security-audit" then ["tintinweb.solidity-visual-auditor", "tintinweb.solidity-metrics", "trailofbits.weaudit", "trailofbits.contract-explorer"]
  else if category = "analysis-tools" then ["tintinweb.solidity-metrics", "trailofbits.contract-explorer", "tintinweb.vscode-decompiler", "Olympixai.olympix"]
  else if category = "vyper-support" then ["tintinweb.vscode-vyper", "tintinweb.vscode-LLL"]
  else if category = "productivity" then ["eamodio.gitlens", "streetsidesoftware.code-spell-checker", "tintinweb.vscode-inline-bookmarks", "ryu1kn.partial-diff", "gimenete.github-linker"]
  else if category = "visualization" then ["tintinweb.vscode-ethover", "tintinweb.vscode-solidity-flattener", "tintinweb.graphviz-interactive-preview", "tintinweb.vscode-solidity-language"]
  else []

/-- First-occurrence deduplication, the behaviour of `[...new Set(xs)]` in the source. -/
def dedupFirstAux (seen : List String) : List String → List String
  | [] => []
  | x :: xs => if x ∈ seen then dedupFirstAux seen xs else x :: dedupFirstAux (x :: seen) xs

/-- First-occurrence deduplication, entry point. -/
def dedupFirst (l : List String) : List String :=
  dedupFirstAux [] l

/-- Embedding of `getRecommendedExtensions`. -/
def getRecommendedExtensions (config : Config) : List String :=
  let extensions := ["ms-vscode.vscode-json"]
  let extensions :=
    if config.extensions.length > 0 then
      extensions ++ config.extensions.flatMap extensionCategoryList
    else
      extensions ++
      (if "solidity" ∈ config.tools ∨ "hardhat" ∈ config.tools ∨ "foundry" ∈ config.tools then ["JuanBlanco.solidity", "NomicFoundation.hardhat-solidity"] else []) ++
      (if "vyper" ∈ config.tools then ["tintinweb.vscode-vyper"] else []) ++
      ["eamodio.gitlens", "streetsidesoftware.code-spell-checker"]
  let extensions :=
    extensions ++
    (if "rust" ∈ config.tools then ["rust-lang.rust-analyzer", "vadimcn.vscode-lldb"] else []) ++
    (if "go" ∈ config.tools then ["golang.go"] else []) ++
    (if "nodejs" ∈ config.tools then ["ms-vscode.vscode-typescript-next", "esbenp.prettier-vscode"] else []) ++
    (if "python" ∈ config.tools then ["ms-python.python", "ms-python.pylint"] else [])
  dedupFirst extensions

/-- The devcontainer manifest assembled by `buildDevContainerConfig` and finalized by `displayOutput`.  The `features` field keeps the feature URIs in insertion order; `customizations` holds the vscode extension list. -/
structure DevContainer where
  name : String
  build : Option String
  image : Option String
  mounts : Option (List String)
  containerUser : Option String
  runArgs : Option (List String)
  features : List String
  customizations : Option (List String)
  forwardPorts : Option (List Nat)
  containerEnv : Option String
  postCreateCommand : Option String
deriving Repr, DecidableEq

/-- Embedding of `buildDevContainerConfig`: the manifest draft (always carries `build = some "Dockerfile"` at this stage). -/
def buildDevContainerConfig (config : Config) : DevContainer :=
  let base : DevContainer :=
    { name := "Web3 Development Environment"
      build := some "Dockerfile"
      image := none
      mounts := none
      containerUser := none
      runArgs := none
      features := []
      customizations := none
      forwardPorts := none
      containerEnv := none
      postCreateCommand := none }
  let d :=
    if config.security = "auditor" then
      { base with
          mounts := some ["source=${localWorkspaceFolder},target=/workspace,type=bind,readonly"]
          containerUser := some "nobody"
          runArgs := some ["--security-opt=no-new-privileges", "--cap-drop=ALL", "--read-only"] }
    else if config.security = "hardened" then
      { base with
          runArgs := some ["--security-opt=no-new-privileges", "--security-opt=seccomp=/etc/docker/seccomp-profiles/default-no-chmod.json", "--security-opt=apparmor:docker-default", "--cap-drop=ALL", "--cap-add=DAC_OVERRIDE", "--read-only"]
          mounts := some ["source=${localWorkspaceFolder},target=/workspace,type=bind", "target=/tmp,type=tmpfs", "target=/var/tmp,type=tmpfs"] }
    else if config.security = "secure" then
      { base with
          runArgs := some ["--security-opt=no-new-privileges", "--cap-drop=ALL", "--cap-add=DAC_OVERRIDE", "--cap-add=SETGID", "--cap-add=SETUID"] }
    else base
  let d :=
    { d with features :=
        (if "git" ∈ config.features then ["ghcr.io/devcontainers/features/git:1"] else []) ++
        (if "docker" ∈ config.features then ["ghcr.io/devcontainers/features/docker-in-docker:2"] else []) ++
        (if "asdf" ∈ config.features then ["ghcr.io/devcontainers-contrib/features/asdf-package:1"] else []) ++
        (if "nvm" ∈ config.features then ["ghcr.io/devcontainers/features/node:1"] else []) }
  let d :=
    if "extensions" ∈ config.features ∨ config.extensions.length > 0 then
      { d with customizations := some (getRecommendedExtensions config) }
    else d
  let d :=
    if "ports" ∈ config.features then
      { d with forwardPorts := some (getCommonPorts config.tools config.features) }
    else d
  let d :=
    if config.shell ≠ "bash" then
      { d with containerEnv := some (getShellPath config.shell) }
    else d
  { d with postCreateCommand := getPostCreateCommand config }

/-- Tags for the instruction blocks of the generated Dockerfile, in the sense of the BuildScript data model. -/
inductive BlockTag where
  | baseImage : BlockTag
  | hardening : BlockTag
  | deps : BlockTag
  | shellInstall : BlockTag
  | toolInstall : String → BlockTag
  | securityToolInstall : String → BlockTag
  | packageManagers : BlockTag
  | ipfs : BlockTag
  | privilegeDrop : BlockTag
  | workdir : BlockTag
deriving Repr, DecidableEq

/-- Base-image line of `buildDockerfile` (tool priority rust, go, nodejs, generic ubuntu). -/
def baseImageText (config : Config) : String :=
  if "rust" ∈ config.tools then "FROM rust:1.75-slim\n\n"
  else if "go" ∈ config.tools then "FROM golang:1.21-slim\n\n"
  else if "nodejs" ∈ config.tools then "FROM node:20-slim\n\n"
  else "FROM ubuntu:22.04\n\n"

/-- Hardening block of `buildDockerfile` (creates the devuser account and the seccomp scaffold). -/
def hardeningText : String :=
  "# Security hardening\nRUN groupadd -r devuser && useradd -r -g devuser devuser\nRUN apt-get update && apt-get install -y --no-install-recommends \\\n    ca-certificates \\\n    && rm -rf /var/lib/apt/lists/*\n\n# Install security profiles\nRUN mkdir -p /etc/docker/seccomp-profiles\nCOPY seccomp-profile.json /etc/docker/seccomp-profiles/default-no-chmod.json\n\n"

/-- Baseline dependency block of `buildDockerfile`, with the conditional `git` line interpolated. -/
def depsText (config : Config) : String :=
  "# Install basic tools and dependencies\nRUN apt-get update && apt-get install -y --no-install-recommends \\\n    curl \\\n    wget \\\n    unzip \\\n    python3 \\\n    python3-pip \\\n    python3-venv \\\n    " ++
  (if "git" ∈ config.features then "git \\" else "") ++
  "\n    && rm -rf /var/lib/apt/lists/*\n\n"

/-- Shell-install block of `buildDockerfile` (zsh and fish branches; empty for any other shell). -/
def shellInstallText (config : Config) : String :=
  if config.shell = "zsh" then
    "# Install Zsh and Oh My Zsh\nRUN apt-get update && apt-get install -y zsh \\\n    && rm -rf /var/lib/apt/lists/* \\\n    && sh -c \"$(curl -fsSL https://raw.github.com/ohmyzsh/ohmyzsh/master/tools/install.sh)\" \"\" --unattended\n\n"
  else if config.shell = "fish" then
    "# Install Fish shell\nRUN apt-get update && apt-get install -y fish \\\n    && rm -rf /var/lib/apt/lists/*\n\n"
  else ""

/-- Final block of `buildDockerfile`: the privilege drop (`USER devuser`) for hardened and auditor profiles, a plain `WORKDIR` otherwise. -/
def finalBlock (config : Config) : BlockTag × String :=
  if config.security = "auditor" then
    (BlockTag.privilegeDrop, "# Set up read-only user for security auditing\nUSER devuser\nWORKDIR /workspace\n")
  else if config.security = "hardened" then
    (BlockTag.privilegeDrop, "# Set up secure user with minimal privileges\nUSER devuser\nWORKDIR /workspace\n")
  else
    (BlockTag.workdir, "# Set working directory\nWORKDIR /workspace\n")

/-- The install blocks of `buildDockerfile`, i.e. everything the source appends before the final user/workdir block, in source order. -/
def installSection (config : Config) : List (BlockTag × String) :=
  [(BlockTag.baseImage, baseImageText config)] ++
  (if config.security = "hardened" ∨ config.security = "auditor" then [(BlockTag.hardening, hardeningText)] else []) ++
  [(BlockTag.deps, depsText config)] ++
  (if config.shell = "zsh" ∨ config.shell = "fish" then [(BlockTag.shellInstall, shellInstallText config)] else []) ++
  (config.tools.map fun t => (BlockTag.toolInstall t, getToolInstallation t)) ++
  (config.securityTools.map fun g => (BlockTag.securityToolInstall g, getSecurityToolInstallation g)) ++
  (if "package-managers" ∈ config.features then [(BlockTag.packageManagers, getPackageManagerInstallation)] else []) ++
  (if "ipfs" ∈ config.features then [(BlockTag.ipfs, getIPFSInstallation)] else [])

/-- The ordered block sequence of `buildDockerfile`: the install section followed by the final user/workdir block. -/
def buildDockerfileBlocks (config : Config) : List (BlockTag × String) :=
  installSection config ++ [finalBlock config]

/-- Concatenation of a list of strings, in order. -/
def strConcat : List String → String
  | [] => ""
  | s :: rest => s ++ strConcat rest

/-- Embedding of `buildDockerfile`: the source builds the Dockerfile by `+=` of exactly the block texts of `buildDockerfileBlocks`, in order. -/
def buildDockerfile (config : Config) : String :=
  strConcat ((buildDockerfileBlocks config).map Prod.snd)

/-- Install blocks in the sense of the BuildScript invariant: every block kind except the privilege drop and the bare workdir. -/
def isInstallBlock : BlockTag → Bool
  | BlockTag.privilegeDrop => false
  | BlockTag.workdir => false
  | _ => true

/-- Embedding of `needsCustomDockerfile` (the DecisionPolicy). -/
def needsCustomDockerfile (config : Config) : Bool :=
  decide (config.security = "hardened") ||
  decide (config.security = "auditor") ||
  decide (config.securityTools.length > 0) ||
  decide (config.tools.length > 1) ||
  decide (config.shell ≠ "bash") ||
  decide ("foundry" ∈ config.tools) ||
  decide ("solidity" ∈ config.tools) ||
  decide ("vyper" ∈ config.tools) ||
  decide ("package-managers" ∈ config.features) ||
  decide ("ipfs" ∈ config.features)

/-- Embedding of `getPredefinedImage` (prebuilt image priority nodejs, python, rust, go, generic base). -/
def getPredefinedImage (config : Config) : String :=
  if "nodejs" ∈ config.tools then "mcr.microsoft.com/devcontainers/javascript-node:20"
  else if "python" ∈ config.tools then "mcr.microsoft.com/devcontainers/python:3.11"
  else if "rust" ∈ config.tools then "mcr.microsoft.com/devcontainers/rust:1"
  else if "go" ∈ config.tools then "mcr.microsoft.com/devcontainers/go:1.21"
  else "mcr.microsoft.com/devcontainers/base:ubuntu"

/-- The manifest finalization performed in `displayOutput`: when no custom Dockerfile is needed, the `build` field is deleted and replaced by the predefined `image`. -/
def finalizeDevContainer (config : Config) : DevContainer :=
  let d := buildDevContainerConfig config
  if needsCustomDockerfile config then d
  else { d with build := none, image := some (getPredefinedImage config) }

/-- The full synthesis result: final manifest, optional Dockerfile, diagnostics. -/
structure SynthesisResult where
  devcontainer : DevContainer
  dockerfile : Option String
  validation : ValidationResults
deriving Repr, DecidableEq

/-- The full synthesis pipeline of `generateDevContainer` and `displayOutput`: validate, compose the manifest and Dockerfile, finalize the build/image decision. -/
def synthesize (config : Config) : SynthesisResult :=
  { devcontainer := finalizeDevContainer config
    dockerfile := if needsCustomDockerfile config then some (buildDockerfile config) else none
    validation := validateConfiguration config }

/-- The run arguments of a manifest, defaulting to none. -/
def runArgsOf (d : DevContainer) : List String := d.runArgs.getD []

/-- The mounts of a manifest, defaulting to none. -/
def mountsOf (d : DevContainer) : List String := d.mounts.getD []

/-- Concrete selection: hardened profile with solidity, static analysis and git. -/
def cfgHardened : Config :=
  { security := "hardened", shell := "bash", tools := ["solidity"], securityTools := ["static-analysis"], features := ["git"], extensions := [] }

/-- Concrete selection: bare auditor profile. -/
def cfgAuditor : Config :=
  { security := "auditor", shell := "bash", tools := [], securityTools := [], features := [], extensions := [] }

/-- Concrete selection: every enumeration field holds an identifier outside the catalog. -/
def cfgUnknown : Config :=
  { security := "ultra", shell := "tcsh", tools := ["cobol"], securityTools := ["rootkit-scan"], features := ["holograms"], extensions := [] }

/-- Concrete selection: foundry together with hardhat, ports forwarded. -/
def cfgPorts : Config :=
  { security := "minimal", shell := "bash", tools := ["foundry", "hardhat"], securityTools := [], features := ["ports"], extensions := [] }

theorem buildDevContainerConfig_build (config : Config) :
    (buildDevContainerConfig config).build = some "Dockerfile" := by
  simp only [buildDevContainerConfig]
  split_ifs <;> rfl

theorem buildDevContainerConfig_image (config : Config) :
    (buildDevContainerConfig config).image = none := by
  simp only [buildDevContainerConfig]
  split_ifs <;> rfl

theorem buildDevContainerConfig_containerUser (config : Config) :
    (buildDevContainerConfig config).containerUser =
      if config.security = "auditor" then some "nobody" else none := by
  simp only [buildDevContainerConfig]
  split_ifs <;> rfl

theorem buildDevContainerConfig_runArgs (config : Config) :
    (buildDevContainerConfig config).runArgs =
      if config.security = "auditor" then
        some ["--security-opt=no-new-privileges", "--cap-drop=ALL", "--read-only"]
      else if config.security = "hardened" then
        some ["--security-opt=no-new-privileges", "--security-opt=seccomp=/etc/docker/seccomp-profiles/default-no-chmod.json", "--security-opt=apparmor:docker-default", "--cap-drop=ALL", "--cap-add=DAC_OVERRIDE", "--read-only"]
      else if config.security = "secure" then
        some ["--security-opt=no-new-privileges", "--cap-drop=ALL", "--cap-add=DAC_OVERRIDE", "--cap-add=SETGID", "--cap-add=SETUID"]
      else none := by
  simp only [buildDevContainerConfig]
  split_ifs <;> rfl

theorem buildDevContainerConfig_mounts (config : Config) :
    (buildDevContainerConfig config).mounts =
      if config.security = "auditor" then
        some ["source=${localWorkspaceFolder},target=/workspace,type=bind,readonly"]
      else if config.security = "hardened" then
        some ["source=${localWorkspaceFolder},target=/workspace,type=bind", "target=/tmp,type=tmpfs", "target=/var/tmp,type=tmpfs"]
      else none := by
  simp only [buildDevContainerConfig]
  split_ifs <;> rfl

theorem buildDevContainerConfig_forwardPorts (config : Config) :
    (buildDevContainerConfig config).forwardPorts =
      if "ports" ∈ config.features then
        some (getCommonPorts config.tools config.features)
      else none := by
  simp only [buildDevContainerConfig]
  split_ifs <;> rfl

theorem finalizeDevContainer_containerUser (config : Config) :
    (finalizeDevContainer config).containerUser = (buildDevContainerConfig config).containerUser := by
  unfold finalizeDevContainer
  split <;> rfl

theorem finalizeDevContainer_forwardPorts (config : Config) :
    (finalizeDevContainer config).forwardPorts = (buildDevContainerConfig config).forwardPorts := by
  unfold finalizeDevContainer
  split <;> rfl

theorem strConcat_split {s : String} {l : List String} (h : s ∈ l) :
    ∃ p q, strConcat l = p ++ s ++ q := by
  induction l with
  | nil => cases h
  | cons x xs ih =>
    rcases List.mem_cons.mp h with rfl | hx
    · exact ⟨"", strConcat xs, rfl⟩
    · obtain ⟨p, q, hpq⟩ := ih hx
      exact ⟨x ++ p, q, by simp [strConcat, hpq, String.append_assoc]⟩

theorem installSection_tags (config : Config) :
    ∀ b ∈ installSection config, isInstallBlock b.1 = true := by
  intro b hb
  simp only [installSection, List.mem_append] at hb
  rcases hb with ((((((hb | hb) | hb) | hb) | hb) | hb) | hb) | hb
  · rw [List.mem_singleton] at hb; subst hb; rfl
  · split at hb
    · rw [List.mem_singleton] at hb; subst hb; rfl
    · exact absurd hb (List.not_mem_nil b)
  · rw [List.mem_singleton] at hb; subst hb; rfl
  · split at hb
    · rw [List.mem_singleton] at hb; subst hb; rfl
    · exact absurd hb (List.not_mem_nil b)
  · obtain ⟨t, _, rfl⟩ := List.mem_map.mp hb; rfl
  · obtain ⟨g, _, rfl⟩ := List.mem_map.mp hb; rfl
  · split at hb
    · rw [List.mem_singleton] at hb; subst hb; rfl
    · exact absurd hb (List.not_mem_nil b)
  · split at hb
    · rw [List.mem_singleton] at hb; subst hb; rfl
    · exact absurd hb (List.not_mem_nil b)

theorem getToolInstallation_unknown {t : String} (ht : t ∉ knownToolIds) :
    getToolInstallation t = "" := by
  simp only [knownToolIds, List.mem_cons, List.not_mem_nil, or_false, not_or] at ht
  obtain ⟨h1, h2, h3, h4, h5, h6, h7, h8⟩ := ht
  simp [getToolInstallation, h1, h2, h3, h4, h5, h6, h7, h8]

theorem getSecurityToolInstallation_unknown {g : String} (hg : g ∉ knownSecurityToolIds) :
    getSecurityToolInstallation g = "" := by
  simp only [knownSecurityToolIds, List.mem_cons, List.not_mem_nil, or_false, not_or] at hg
  obtain ⟨h1, h2, h3, h4, h5⟩ := hg
  simp [getSecurityToolInstallation, h1, h2, h3, h4, h5]

/-- C1: for every selection with the hardened or auditor security profile that needs a custom build, the generated build script decomposes as an install section followed by the privilege-drop block (`USER devuser`): every base-image, hardening, dependency, shell, tool, security-tool, package-manager or IPFS block sits at a strictly smaller index than the privilege-drop block, which is the last block, and no install block follows it. -/
theorem privilege_drop_block_is_last (config : Config)
    (hsec : config.security = "hardened" ∨ config.security = "auditor")
    (_hn : needsCustomDockerfile config = true) :
    ∃ pre, buildDockerfileBlocks config = pre ++ [finalBlock config] ∧
      (finalBlock config).1 = BlockTag.privilegeDrop ∧
      (∀ b ∈ pre, isInstallBlock b.1 = true) ∧
      isInstallBlock BlockTag.privilegeDrop = false := by
  refine ⟨installSection config, rfl, ?_, installSection_tags config, rfl⟩
  rcases hsec with h | h <;> simp [finalBlock, h]

/-- Witness for C1 at the concrete hardened selection `cfgHardened`. -/
theorem privilege_drop_block_is_last_witness :
    ∃ pre, buildDockerfileBlocks cfgHardened = pre ++ [finalBlock cfgHardened] ∧
      (finalBlock cfgHardened).1 = BlockTag.privilegeDrop ∧
      (∀ b ∈ pre, isInstallBlock b.1 = true) ∧
      isInstallBlock BlockTag.privilegeDrop = false :=
  privilege_drop_block_is_last cfgHardened (Or.inl rfl) (by decide)

/-- C2: the final manifest produced by synthesis carries the `build` reference exactly when a custom build is needed and the prebuilt `image` reference exactly otherwise, so exactly one of the two fields is present, never both and never neither. -/
theorem build_image_mutually_exclusive (config : Config) :
    (synthesize config).devcontainer.build.isSome = needsCustomDockerfile config ∧
    (synthesize config).devcontainer.image.isSome = !needsCustomDockerfile config := by
  have hb := buildDevContainerConfig_build config
  have hi := buildDevContainerConfig_image config
  unfold synthesize finalizeDevContainer
  by_cases h : needsCustomDockerfile config = true <;> simp_all

/-- C3 counterexample: for the bare auditor selection the manifest run arguments do not contain the hardened seccomp and apparmor flags, and the mounts do not contain the hardened tmpfs mounts, so the auditor configuration is not "hardened plus additions" as claimed. -/
theorem auditor_not_hardened_superset :
    "--security-opt=seccomp=/etc/docker/seccomp-profiles/default-no-chmod.json" ∉
      runArgsOf (buildDevContainerConfig cfgAuditor) ∧
    "--security-opt=apparmor:docker-default" ∉ runArgsOf (buildDevContainerConfig cfgAuditor) ∧
    "target=/tmp,type=tmpfs" ∉ mountsOf (buildDevContainerConfig cfgAuditor) ∧
    "target=/var/tmp,type=tmpfs" ∉ mountsOf (buildDevContainerConfig cfgAuditor) := by
  decide

/-- C3 (amended): for every auditor selection the manifest has exactly the run arguments no-new-privileges, cap-drop ALL and read-only (each of which the hardened profile also has), a single read-only workspace bind mount, containerUser `nobody`, and no re-added capability; unlike the claim, the hardened seccomp and apparmor flags and the tmpfs mounts are NOT carried over to the auditor profile.  The build script agrees with the hardened one on every block except the final privilege-drop block, whose comment line differs. -/
theorem auditor_profile_vs_hardened (config : Config) (h : config.security = "auditor") :
    (buildDevContainerConfig config).runArgs =
      some ["--security-opt=no-new-privileges", "--cap-drop=ALL", "--read-only"] ∧
    (buildDevContainerConfig config).mounts =
      some ["source=${localWorkspaceFolder},target=/workspace,type=bind,readonly"] ∧
    (buildDevContainerConfig config).containerUser = some "nobody" ∧
    (∀ a ∈ runArgsOf (buildDevContainerConfig config),
      a ∉ ["--cap-add=DAC_OVERRIDE", "--cap-add=SETGID", "--cap-add=SETUID"]) ∧
    (∀ a ∈ runArgsOf (buildDevContainerConfig config),
      a ∈ runArgsOf (buildDevContainerConfig { config with security := "hardened" })) ∧
    "--security-opt=seccomp=/etc/docker/seccomp-profiles/default-no-chmod.json" ∈
      runArgsOf (buildDevContainerConfig { config with security := "hardened" }) ∧
    "--security-opt=seccomp=/etc/docker/seccomp-profiles/default-no-chmod.json" ∉
      runArgsOf (buildDevContainerConfig config) ∧
    "--security-opt=apparmor:docker-default" ∉ runArgsOf (buildDevContainerConfig config) ∧
    "target=/tmp,type=tmpfs" ∈
      mountsOf (buildDevContainerConfig { config with security := "hardened" }) ∧
    "target=/tmp,type=tmpfs" ∉ mountsOf (buildDevContainerConfig config) ∧
    (buildDockerfileBlocks config).dropLast =
      (buildDockerfileBlocks { config with security := "hardened" }).dropLast ∧
    (finalBlock config).1 = BlockTag.privilegeDrop ∧
    (finalBlock { config with security := "hardened" }).1 = BlockTag.privilegeDrop := by
  have hr := buildDevContainerConfig_runArgs config
  have hm := buildDevContainerConfig_mounts config
  have hu := buildDevContainerConfig_containerUser config
  have hrh := buildDevContainerConfig_runArgs { config with security := "hardened" }
  have hmh := buildDevContainerConfig_mounts { config with security := "hardened" }
  rw [h] at hr hm hu
  simp only [reduceIte] at hr hm hu hrh hmh
  refine ⟨hr, hm, hu, ?_, ?_, ?_, ?_, ?_, ?_, ?_, ?_, ?_, ?_⟩
  · simp [runArgsOf, hr]
  · simp [runArgsOf, hr, hrh]
  · simp [runArgsOf, hrh]
  · simp [runArgsOf, hr]
  · simp [runArgsOf, hr]
  · simp [mountsOf, hmh]
  · simp [mountsOf, hm]
  · show (installSection config ++ [finalBlock config]).dropLast =
      (installSection { config with security := "hardened" } ++
        [finalBlock { config with security := "hardened" }]).dropLast
    simp only [List.dropLast_append_cons, List.dropLast_single, List.append_nil]
    simp [installSection, h, baseImageText, depsText, shellInstallText]
  · simp [finalBlock, h]
  · simp [finalBlock]

/-- Witness for C3 (amended) at the concrete auditor selection `cfgAuditor`. -/
theorem auditor_profile_vs_hardened_witness :
    (buildDevContainerConfig cfgAuditor).runArgs =
      some ["--security-opt=no-new-privileges", "--cap-drop=ALL", "--read-only"] ∧
    (buildDevContainerConfig cfgAuditor).mounts =
      some ["source=${localWorkspaceFolder},target=/workspace,type=bind,readonly"] ∧
    (buildDevContainerConfig cfgAuditor).containerUser = some "nobody" ∧
    (∀ a ∈ runArgsOf (buildDevContainerConfig cfgAuditor),
      a ∉ ["--cap-add=DAC_OVERRIDE", "--cap-add=SETGID", "--cap-add=SETUID"]) ∧
    (∀ a ∈ runArgsOf (buildDevContainerConfig cfgAuditor),
      a ∈ runArgsOf (buildDevContainerConfig { cfgAuditor with security := "hardened" })) ∧
    "--security-opt=seccomp=/etc/docker/seccomp-profiles/default-no-chmod.json" ∈
      runArgsOf (buildDevContainerConfig { cfgAuditor with security := "hardened" }) ∧
    "--security-opt=seccomp=/etc/docker/seccomp-profiles/default-no-chmod.json" ∉
      runArgsOf (buildDevContainerConfig cfgAuditor) ∧
    "--security-opt=apparmor:docker-default" ∉ runArgsOf (buildDevContainerConfig cfgAuditor) ∧
    "target=/tmp,type=tmpfs" ∈
      mountsOf (buildDevContainerConfig { cfgAuditor with security := "hardened" }) ∧
    "target=/tmp,type=tmpfs" ∉ mountsOf (buildDevContainerConfig cfgAuditor) ∧
    (buildDockerfileBlocks cfgAuditor).dropLast =
      (buildDockerfileBlocks { cfgAuditor with security := "hardened" }).dropLast ∧
    (finalBlock cfgAuditor).1 = BlockTag.privilegeDrop ∧
    (finalBlock { cfgAuditor with security := "hardened" }).1 = BlockTag.privilegeDrop :=
  auditor_profile_vs_hardened cfgAuditor rfl

/-- C4 counterexample: at a selection whose security profile, shell, tool, security tool and feature are all outside the closed enumerations, synthesis does not fail: the unknown shell is silently coerced to `/bin/bash` (and that default even lands in the manifest's `containerEnv`), the unknown tool and security tool contribute empty fragments, the manifest is still produced with its build reference, and no error diagnostic is raised. -/
theorem unknown_values_not_rejected :
    getShellPath "tcsh" = "/bin/bash" ∧
    getToolInstallation "cobol" = "" ∧
    getSecurityToolInstallation "rootkit-scan" = "" ∧
    (buildDevContainerConfig cfgUnknown).containerEnv = some "/bin/bash" ∧
    (buildDevContainerConfig cfgUnknown).build = some "Dockerfile" ∧
    (synthesize cfgUnknown).validation.errors = [] := by
  decide

/-- C4 (amended): unknown identifiers are silently tolerated rather than rejected: an unknown tool or security-tool id resolves to the empty installation fragment, an unknown shell resolves to the `/bin/bash` default, an unknown security profile receives no profile-specific run arguments or container user, and synthesis still produces a manifest with its build reference. -/
theorem unknown_values_coerced (t g sh : String) (config : Config)
    (ht : t ∉ knownToolIds) (hg : g ∉ knownSecurityToolIds)
    (hsh : sh ∉ ["bash", "zsh", "fish"])
    (hs : config.security ∉ ["auditor", "hardened", "secure"]) :
    getToolInstallation t = "" ∧
    getSecurityToolInstallation g = "" ∧
    getShellPath sh = "/bin/bash" ∧
    (buildDevContainerConfig config).runArgs = none ∧
    (buildDevContainerConfig config).mounts = none ∧
    (buildDevContainerConfig config).containerUser = none ∧
    (buildDevContainerConfig config).build = some "Dockerfile" := by
  simp only [List.mem_cons, List.not_mem_nil, or_false, not_or] at hsh hs
  obtain ⟨hs1, hs2, hs3⟩ := hs
  obtain ⟨hsh1, hsh2, hsh3⟩ := hsh
  refine ⟨getToolInstallation_unknown ht, getSecurityToolInstallation_unknown hg, ?_, ?_, ?_, ?_,
    buildDevContainerConfig_build config⟩
  · simp [getShellPath, hsh1, hsh2, hsh3]
  · simp [buildDevContainerConfig_runArgs, hs1, hs2, hs3]
  · simp [buildDevContainerConfig_mounts, hs1, hs2]
  · simp [buildDevContainerConfig_containerUser, hs1]

/-- Witness for C4 (amended) at the concrete out-of-enumeration selection `cfgUnknown`. -/
theorem unknown_values_coerced_witness :
    getToolInstallation "cobol" = "" ∧
    getSecurityToolInstallation "rootkit-scan" = "" ∧
    getShellPath "tcsh" = "/bin/bash" ∧
    (buildDevContainerConfig cfgUnknown).runArgs = none ∧
    (buildDevContainerConfig cfgUnknown).mounts = none ∧
    (buildDevContainerConfig cfgUnknown).containerUser = none ∧
    (buildDevContainerConfig cfgUnknown).build = some "Dockerfile" :=
  unknown_values_coerced "cobol" "rootkit-scan" "tcsh" cfgUnknown
    (by decide) (by decide) (by decide) (by decide)

/-- C5: `needsCustomDockerfile` returns true exactly when the profile is hardened or auditor, a security tool is selected, more than one tool is selected, the shell is not bash, the tools include foundry, solidity or vyper, or the features include package-managers or ipfs. -/
theorem needsCustomDockerfile_iff (config : Config) :
    needsCustomDockerfile config = true ↔
      (config.security = "hardened" ∨ config.security = "auditor" ∨
       config.securityTools.length > 0 ∨ config.tools.length > 1 ∨
       config.shell ≠ "bash" ∨ "foundry" ∈ config.tools ∨ "solidity" ∈ config.tools ∨
       "vyper" ∈ config.tools ∨ "package-managers" ∈ config.features ∨
       "ipfs" ∈ config.features) := by
  simp only [needsCustomDockerfile, Bool.or_eq_true, decide_eq_true_eq]
  tauto

/-- C6: whenever a custom build is generated, the installation fragment of every selected tool appears verbatim as a contiguous substring of the generated Dockerfile text; an unknown tool id maps to the empty fragment rather than an error. -/
theorem tool_fragment_in_dockerfile (config : Config) (t : String)
    (ht : t ∈ config.tools) (_hn : needsCustomDockerfile config = true) :
    (∃ p q, buildDockerfile config = p ++ getToolInstallation t ++ q) ∧
    (t ∉ knownToolIds → getToolInstallation t = "") := by
  refine ⟨?_, fun h => getToolInstallation_unknown h⟩
  apply strConcat_split
  have hmem : (BlockTag.toolInstall t, getToolInstallation t) ∈
      installSection config ++ [finalBlock config] := by
    apply List.mem_append_left
    simp only [installSection, List.mem_append]
    exact Or.inl (Or.inl (Or.inl (Or.inr (List.mem_map_of_mem _ ht))))
  exact List.mem_map.mpr ⟨_, hmem, rfl⟩

/-- Witness for C6: the foundry fragment is a substring of the Dockerfile generated for `cfgPorts`. -/
theorem tool_fragment_in_dockerfile_witness :
    (∃ p q, buildDockerfile cfgPorts = p ++ getToolInstallation "foundry" ++ q) ∧
    ("foundry" ∉ knownToolIds → getToolInstallation "foundry" = "") :=
  tool_fragment_in_dockerfile cfgPorts "foundry" (by decide) (by decide)

/-- C7: validation emits exactly one error diagnostic (the Docker-in-Docker vs read-only auditor incompatibility) when the docker feature is combined with the auditor profile, and no error diagnostic for any other selection. -/
theorem auditor_docker_only_error (config : Config) :
    (validateConfiguration config).errors =
      if "docker" ∈ config.features ∧ config.security = "auditor" then
        ["Docker-in-Docker is not compatible with read-only auditor mode."]
      else [] := rfl

/-- C8: synthesis is deterministic: the engine is a pure function of the SelectionModel, so two runs on the same selection yield the identical manifest, build script and diagnostics, with the diagnostics sequence fixed in rule declaration order by `validateConfiguration`. -/
theorem synthesize_deterministic (config : Config) :
    synthesize config = synthesize config ∧
    (synthesize config).validation = validateConfiguration config ∧
    (synthesize config).dockerfile =
      (if needsCustomDockerfile config then some (buildDockerfile config) else none) :=
  ⟨rfl, rfl, rfl⟩

/-- C9: the final manifest's containerUser field is `some "nobody"` exactly for the auditor profile and absent for every other security profile. -/
theorem containerUser_iff_auditor (config : Config) :
    (synthesize config).devcontainer.containerUser =
      if config.security = "auditor" then some "nobody" else none := by
  show (finalizeDevContainer config).containerUser = _
  rw [finalizeDevContainer_containerUser, buildDevContainerConfig_containerUser]

/-- C10: the forwarded port list is not deduplicated: with the ports feature, selecting foundry together with hardhat or nodejs makes port 8545 appear twice, and with no port-contributing tool or feature the list defaults to exactly `[8545, 3000]`. -/
theorem forwardPorts_duplicates_and_default (config : Config)
    (hp : "ports" ∈ config.features) :
    (synthesize config).devcontainer.forwardPorts =
      some (getCommonPorts config.tools config.features) ∧
    ("foundry" ∈ config.tools → ("hardhat" ∈ config.tools ∨ "nodejs" ∈ config.tools) →
      (getCommonPorts config.tools config.features).count 8545 = 2) ∧
    ("hardhat" ∉ config.tools → "nodejs" ∉ config.tools → "foundry" ∉ config.tools →
     "ipfs" ∉ config.features →
      getCommonPorts config.tools config.features = [8545, 3000]) := by
  refine ⟨?_, ?_, ?_⟩
  · show (finalizeDevContainer config).forwardPorts = _
    rw [finalizeDevContainer_forwardPorts, buildDevContainerConfig_forwardPorts, if_pos hp]
  · intro hf hh
    by_cases hi : "ipfs" ∈ config.features <;> simp [getCommonPorts, hf, hh, hi]
  · intro h1 h2 h3 h4
    simp [getCommonPorts, h1, h2, h3, h4]

/-- Witness for C10 at the concrete selection `cfgPorts` (foundry plus hardhat with forwarded ports). -/
theorem forwardPorts_duplicates_and_default_witness :
    (synthesize cfgPorts).devcontainer.forwardPorts =
      some (getCommonPorts cfgPorts.tools cfgPorts.features) ∧
    ("foundry" ∈ cfgPorts.tools → ("hardhat" ∈ cfgPorts.tools ∨ "nodejs" ∈ cfgPorts.tools) →
      (getCommonPorts cfgPorts.tools cfgPorts.features).count 8545 = 2) ∧
    ("hardhat" ∉ cfgPorts.tools → "nodejs" ∉ cfgPorts.tools → "foundry" ∉ cfgPorts.tools →
     "ipfs" ∉ cfgPorts.features →
      getCommonPorts cfgPorts.tools cfgPorts.features = [8545, 3000]) :=
  forwardPorts_duplicates_and_default cfgPorts (by decide)

end DevWizard
